import Mathlib

/-!
Verification of the pricing-model core of the `price-calculator` repository:
the ClearWay model evaluator, the DALRIS model evaluator, and the project
registry.  JavaScript numbers are idealised as real numbers (`ℝ`); a separate
`JSNum` type captures the IEEE special values `Infinity`/`-Infinity`/`NaN`
for the totality/propagation properties, with finite arithmetic exact.
-/

namespace ClearWay

/-- The ClearWay `City` input record (`src/unnamed/part_005`, interface `City`).
The `id`/`name` fields are display-only strings and are omitted; the eleven
numeric parameters are carried as reals. -/
structure City where
  L : ℝ
  coverage_pct : ℝ
  V : ℝ
  d : ℝ
  T : ℝ
  E : ℝ
  alpha : ℝ
  delta_t : ℝ
  Cm : ℝ
  a : ℝ
  b : ℝ

/-- The ClearWay `ModelResult` record (`src/unnamed/part_005`). -/
structure ModelResult where
  CI : ℝ
  Qf : ℝ
  Qt : ℝ
  R : ℝ
  L_measured : ℝ
  Q : ℝ
  SV : ℝ
  SV_real : ℝ
  P : ℝ

/-- Constant `K_FLEET = 100` (`src/unnamed/part_005`). -/
def K_FLEET : ℝ := 100

/-- Constant `T_IDEAL = 3` (`src/unnamed/part_005`). -/
def T_IDEAL : ℝ := 3

/-- The ClearWay model evaluator, translated line by line from
`computeModel` in `src/unnamed/part_005` (the 8-stage pipeline).
`Math.exp` becomes `Real.exp`; `Math.min`/`Math.max` become `min`/`max`. -/
noncomputable def computeModel (city : City) : ModelResult :=
  let CI := (city.V * city.d * 365) / city.L
  let Qf := 1 - Real.exp (-CI / K_FLEET)
  let Qt := min 1 (Real.exp (-(city.T - T_IDEAL) / T_IDEAL))
  let R := min (max (city.coverage_pct / 100) 0) 1
  let L_measured := R * city.L
  let Q := R * Qf * Qt
  let SV := city.E * city.alpha * city.delta_t * city.Cm
  let SV_real := SV * Q
  let P := city.a * city.L + city.b * SV_real
  { CI := CI, Qf := Qf, Qt := Qt, R := R, L_measured := L_measured,
    Q := Q, SV := SV, SV_real := SV_real, P := P }

/-- clamp as the specification words it: `clamp(x, lo, hi)`. -/
noncomputable def clamp (x lo hi : ℝ) : ℝ := min (max x lo) hi

/-- The mapping claimed by the specification for the ClearWay evaluator,
written from the spec's own formulas (used only to compare against
`computeModel`): `CI = (V * d * 365) / L`; `Qf = 1 - exp(-CI / 100)`;
`Qt = min(1, exp(-(T - 3) / 3))`; `R = clamp(coverage_pct / 100, 0, 1)`;
`L_measured = R * L`; `Q = R * Qf * Qt`; `SV = E * alpha * delta_t * Cm`;
`SV_real = SV * Q`; `P = a * L + b * SV_real`. -/
noncomputable def specModel (city : City) : ModelResult :=
  { CI := (city.V * city.d * 365) / city.L
    Qf := 1 - Real.exp (-((city.V * city.d * 365) / city.L) / 100)
    Qt := min 1 (Real.exp (-(city.T - 3) / 3))
    R := clamp (city.coverage_pct / 100) 0 1
    L_measured := clamp (city.coverage_pct / 100) 0 1 * city.L
    Q := clamp (city.coverage_pct / 100) 0 1
         * (1 - Real.exp (-((city.V * city.d * 365) / city.L) / 100))
         * min 1 (Real.exp (-(city.T - 3) / 3))
    SV := city.E * city.alpha * city.delta_t * city.Cm
    SV_real := city.E * city.alpha * city.delta_t * city.Cm
         * (clamp (city.coverage_pct / 100) 0 1
            * (1 - Real.exp (-((city.V * city.d * 365) / city.L) / 100))
            * min 1 (Real.exp (-(city.T - 3) / 3)))
    P := city.a * city.L + city.b
         * (city.E * city.alpha * city.delta_t * city.Cm
            * (clamp (city.coverage_pct / 100) 0 1
               * (1 - Real.exp (-((city.V * city.d * 365) / city.L) / 100))
               * min 1 (Real.exp (-(city.T - 3) / 3)))) }

/-- The shipped Plzeň preset (`PRESET_CITIES[0]` in `src/unnamed/part_005`). -/
def plzen : City :=
  { L := 420, coverage_pct := 60, V := 5, d := 75, T := 3,
    E := 15000, alpha := 0.15, delta_t := 1.5, Cm := 5000,
    a := 1000, b := 0.10 }

end ClearWay

namespace Dalris

/-- A DALRIS hardware tier record (`src/lib/projects/dalris/model.ts`,
interface `HardwareTier`). -/
structure HardwareTier where
  name : String
  count : ℝ
  maintenance : ℝ
  unitCapex : ℝ

/-- The DALRIS `DalrisCity` input record (`src/lib/projects/dalris/model.ts`,
lines 71-77).  The source guards `Array.isArray(city.tiers) ? city.tiers : []`,
so an absent `tiers` field is representable: we carry it as an `Option`,
with `none` standing for absent/non-array. -/
structure DalrisCity where
  id : String
  name : String
  L_base : ℝ
  P_base_risk : ℝ
  t_recovery : ℝ
  tiers : Option (List HardwareTier)

/-- The DALRIS `DalrisResult` record (`src/lib/projects/dalris/model.ts`). -/
structure DalrisResult where
  V_readiness : ℝ
  totalMaintenance : ℝ
  P_OPEX : ℝ
  totalCAPEX : ℝ
  P : ℝ

/-- The DALRIS model evaluator, translated line by line from `computeModel`
in `src/lib/projects/dalris/model.ts` (lines 90-105).  The two
`Array.prototype.reduce` folds become `List.foldl`; the `Array.isArray`
guard becomes `Option.getD`. -/
noncomputable def computeModel (city : DalrisCity) : DalrisResult :=
  let tiers := city.tiers.getD []
  let V_readiness := city.P_base_risk * (1 + 24 / city.t_recovery)
  let totalMaintenance :=
    tiers.foldl (fun sum t => sum + t.count * t.maintenance) 0
  let P_OPEX := city.L_base + totalMaintenance + V_readiness
  let totalCAPEX := tiers.foldl (fun sum t => sum + t.count * t.unitCapex) 0
  { V_readiness := V_readiness
    totalMaintenance := totalMaintenance
    P_OPEX := P_OPEX
    totalCAPEX := totalCAPEX
    P := P_OPEX }

/-- A left fold accumulating `sum + f t` from `0` is the sum of the mapped
list; used to relate the source's `reduce` to the spec's Σ. -/
theorem foldl_add_eq_sum (f : HardwareTier → ℝ) (l : List HardwareTier) :
    l.foldl (fun sum t => sum + f t) 0 = (l.map f).sum := by
  have h : ∀ (init : ℝ), l.foldl (fun sum t => sum + f t) init
      = init + (l.map f).sum := by
    induction l with
    | nil => intro init; simp
    | cons t ts ih =>
      intro init
      simp only [List.foldl_cons, List.map_cons, List.sum_cons, ih]
      ring
  simpa using h 0

/-- A DALRIS input with `P_base_risk = 1 > 0` and a negative SLA recovery
time `t_recovery = -1`, for which `V_readiness = 1 * (1 + 24/(-1)) = -23`. -/
def negRecoveryCity : DalrisCity :=
  { id := "neg", name := "neg", L_base := 0, P_base_risk := 1,
    t_recovery := -1, tiers := some [] }

/-- A sample LoRa sensor tier, for concrete instances. -/
def tierA : HardwareTier :=
  { name := "Senzor (LoRaWAN)", count := 50, maintenance := 2500,
    unitCapex := 8000 }

/-- A sample WiFi info-point tier, for concrete instances. -/
def tierB : HardwareTier :=
  { name := "WiFi Info Point", count := 10, maintenance := 8000,
    unitCapex := 45000 }

/-- The DALRIS Plzeň preset (`PRESET_CITIES[0]` in
`src/lib/projects/dalris/model.ts`). -/
def plzen : DalrisCity :=
  { id := "plzen", name := "Plzeň",
    L_base := 500000, P_base_risk := 200000, t_recovery := 24,
    tiers := some
      [ { name := "Senzor (LoRaWAN)", count := 30, maintenance := 2500,
          unitCapex := 8000 },
        { name := "WiFi Info Point", count := 6, maintenance := 8000,
          unitCapex := 45000 },
        { name := "FM vysílací uzel", count := 2, maintenance := 15000,
          unitCapex := 120000 } ] }

end Dalris

namespace ClearWay

/-- A ClearWay input with a negative vehicle count (`V = -1`), for which
`CI < 0`, `Qf = 1 - exp(3.65) < 0`, and raising the coverage lowers `Q`. -/
def negFleetCity : City :=
  { L := 10, coverage_pct := 0, V := -1, d := 10, T := 3,
    E := 1, alpha := 1, delta_t := 1, Cm := 1, a := 1, b := 1 }

end ClearWay

namespace Registry

/-- The display/config part of a `ProjectDefinition`
(`src/lib/projects/registry.ts`).  The per-project evaluators are the typed
functions `ClearWay.computeModel` / `Dalris.computeModel` above; the
registry's `computeModel` field is only a type-erasing adapter around them,
so the definition record here carries the remaining (string/list/flag)
fields. -/
structure ProjectDefinition where
  slug : String
  name : String
  description : String
  version : String
  color : String
  paramGroups : List String
  hasCharts : Bool
deriving DecidableEq

/-- Definition `clearwayProject` (`src/lib/projects/clearway`). -/
def clearwayProject : ProjectDefinition :=
  { slug := "clearway", name := "ClearWay",
    description :=
      "Cenový model inteligentní správy silniční sítě — Smart City / IZS",
    version := "v2.0", color := "#1d6fe8",
    paramGroups := ["Infrastruktura", "Sběr dat", "IZS parametry",
      "Cenový model"],
    hasCharts := true }

/-- Definition `dalrisProject` (`src/unnamed/part_004`). -/
def dalrisProject : ProjectDefinition :=
  { slug := "dalris", name := "DALRIS",
    description :=
      "Krizový komunikační systém — monitoring infrastruktury přes LoRa rádio, distribuce informací při výpadku sítí",
    version := "v1.0", color := "#10b981",
    paramGroups := ["Platforma", "SLA & Pohotovost"],
    hasCharts := false }

/-- Registry `PROJECT_REGISTRY` (`src/lib/projects/registry.ts`): the object literal
`{ clearway: clearwayProject, dalris: dalrisProject }`, embedded as an
association list keyed by slug. -/
def PROJECT_REGISTRY : List (String × ProjectDefinition) :=
  [("clearway", clearwayProject), ("dalris", dalrisProject)]

/-- The member names every plain JavaScript object literal inherits from
`Object.prototype`: a property access with one of these keys yields the
inherited member (a function, or the prototype object for `__proto__`),
not `undefined`. -/
def OBJECT_PROTOTYPE_MEMBERS : List String :=
  ["constructor", "hasOwnProperty", "isPrototypeOf", "propertyIsEnumerable",
   "toLocaleString", "toString", "valueOf", "__proto__",
   "__defineGetter__", "__defineSetter__", "__lookupGetter__",
   "__lookupSetter__"]

/-- The runtime outcome of the property access `PROJECT_REGISTRY[slug]`:
an own entry (a `ProjectDefinition`), a member inherited from
`Object.prototype` (recorded by its key; its value is a function or the
prototype object, in particular not `undefined`), or `undefined`. -/
inductive LookupResult where
  | found : ProjectDefinition → LookupResult
  | inherited : String → LookupResult
  | undef : LookupResult
deriving DecidableEq

/-- Lookup `getProject` (`src/lib/projects/registry.ts`, lines 47-49): the
property access `PROJECT_REGISTRY[slug]` on the plain object literal.  It
consults the object's own keys first and then the `Object.prototype` chain
(the literal is not prototype-free), and yields `undefined` only when the
key is found in neither. -/
def getProject (slug : String) : LookupResult :=
  match PROJECT_REGISTRY.find? (fun p => p.1 = slug) with
  | some p => LookupResult.found p.2
  | none =>
      if slug ∈ OBJECT_PROTOTYPE_MEMBERS then LookupResult.inherited slug
      else LookupResult.undef

/-- Slug list `PROJECT_SLUGS` (`src/lib/projects/registry.ts`):
`Object.keys(PROJECT_REGISTRY)` (own enumerable keys only). -/
def PROJECT_SLUGS : List String := PROJECT_REGISTRY.map (·.1)

end Registry

/-- C4: The registered slugs resolve and `getProject "nonexistent-slug"` is
absent, as claimed — but the universal-absence clause is false of the code:
`getProject` is the bare property access `PROJECT_REGISTRY[slug]` on a plain
object literal, so a slug naming an inherited `Object.prototype` member,
such as `"constructor"`, yields that inherited member rather than
`undefined`.  The spec's contract (unknown slug signals absence, callers
branch on absence for their 404) is the evident intent, and the API handler
in `src/unnamed/part_001` would skip its 404 branch for such slugs: the
code, not the claim, is at fault. -/
theorem registry_getProject_inherits_object_prototype :
    Registry.getProject "clearway"
        = Registry.LookupResult.found Registry.clearwayProject
    ∧ Registry.getProject "dalris"
        = Registry.LookupResult.found Registry.dalrisProject
    ∧ Registry.getProject "nonexistent-slug" = Registry.LookupResult.undef
    ∧ Registry.getProject "constructor"
        = Registry.LookupResult.inherited "constructor"
    ∧ "constructor" ∉ Registry.PROJECT_SLUGS
    ∧ Registry.getProject "constructor" ≠ Registry.LookupResult.undef := by
  refine ⟨by rfl, by rfl, by rfl, by rfl, by decide, by decide⟩

/-- C1: For every ClearWay input record, `computeModel` returns exactly the
mapping `{CI, Qf, Qt, R, L_measured, Q, SV, SV_real, P}` defined by the
8-stage pipeline with `K_FLEET = 100` and `T_IDEAL = 3`. -/
theorem clearway_computeModel_matches_spec (city : ClearWay.City) :
    ClearWay.computeModel city = ClearWay.specModel city := by
  simp [ClearWay.computeModel, ClearWay.specModel, ClearWay.clamp,
    ClearWay.K_FLEET, ClearWay.T_IDEAL]

/-- C2: For every DALRIS input record, `computeModel` returns
`V_readiness = P_base_risk * (1 + 24 / t_recovery)`,
`totalMaintenance = Σ tiers (count * maintenance)`,
`P_OPEX = L_base + totalMaintenance + V_readiness`,
`totalCAPEX = Σ tiers (count * unitCapex)` and `P = P_OPEX`; and when the
`tiers` sequence is absent (`none`) or empty (`some []`), both sums are `0`
and `P_OPEX = L_base + V_readiness`, with no error raised (the evaluator is
a total function). -/
theorem dalris_computeModel_matches_spec (c : Dalris.DalrisCity) :
    (Dalris.computeModel c).V_readiness
        = c.P_base_risk * (1 + 24 / c.t_recovery)
    ∧ (Dalris.computeModel c).totalMaintenance
        = ((c.tiers.getD []).map (fun t => t.count * t.maintenance)).sum
    ∧ (Dalris.computeModel c).P_OPEX
        = c.L_base + (Dalris.computeModel c).totalMaintenance
          + (Dalris.computeModel c).V_readiness
    ∧ (Dalris.computeModel c).totalCAPEX
        = ((c.tiers.getD []).map (fun t => t.count * t.unitCapex)).sum
    ∧ (Dalris.computeModel c).P = (Dalris.computeModel c).P_OPEX
    ∧ (Dalris.computeModel { c with tiers := none }).totalMaintenance = 0
    ∧ (Dalris.computeModel { c with tiers := none }).totalCAPEX = 0
    ∧ (Dalris.computeModel { c with tiers := none }).P_OPEX
        = c.L_base + (Dalris.computeModel { c with tiers := none }).V_readiness
    ∧ (Dalris.computeModel { c with tiers := some [] }).totalMaintenance = 0
    ∧ (Dalris.computeModel { c with tiers := some [] }).totalCAPEX = 0
    ∧ (Dalris.computeModel { c with tiers := some [] }).P_OPEX
        = c.L_base
          + (Dalris.computeModel { c with tiers := some [] }).V_readiness := by
  refine ⟨?_, ?_, ?_, ?_, ?_, ?_, ?_, ?_, ?_, ?_, ?_⟩ <;>
    simp [Dalris.computeModel, Dalris.foldl_add_eq_sum]

/-- C5: For every ClearWay input, the `R` component of `computeModel` lies
within `[0, 1]`, including when `coverage_pct` is outside `[0, 100]`
(clamping law). -/
theorem clearway_R_in_unit_interval (city : ClearWay.City) :
    0 ≤ (ClearWay.computeModel city).R
    ∧ (ClearWay.computeModel city).R ≤ 1 := by
  constructor
  · exact le_min (le_max_right _ _) zero_le_one
  · exact min_le_right _ _

/-- C6: For every ClearWay input whose `T` satisfies `T ≤ T_IDEAL = 3`, the
`Qt` component of `computeModel` is exactly `1`. -/
theorem clearway_Qt_eq_one_of_T_le_ideal (city : ClearWay.City)
    (h : city.T ≤ ClearWay.T_IDEAL) :
    (ClearWay.computeModel city).Qt = 1 := by
  have h3 : (0 : ℝ) < ClearWay.T_IDEAL := by norm_num [ClearWay.T_IDEAL]
  have hx : 0 ≤ -(city.T - ClearWay.T_IDEAL) / ClearWay.T_IDEAL := by
    apply div_nonneg _ h3.le
    linarith
  exact min_eq_left (Real.one_le_exp hx)

/-- C6 witness: the Plzeň preset has `T = 3 ≤ T_IDEAL`, and its `Qt` is `1`. -/
theorem clearway_Qt_eq_one_of_T_le_ideal_witness :
    (ClearWay.computeModel ClearWay.plzen).Qt = 1 :=
  clearway_Qt_eq_one_of_T_le_ideal ClearWay.plzen
    (by norm_num [ClearWay.plzen, ClearWay.T_IDEAL])

/-- C7 counterexample: two ClearWay inputs agreeing on everything but
`coverage_pct` (`0 ≤ 100`), with a negative vehicle count `V = -1`; the
`Q` of the lower-coverage input is `0` while the `Q` of the higher-coverage
input is `1 - exp(3.65) < 0`, so `Q` is not monotone in `coverage_pct` over
all inputs. -/
theorem clearway_Q_not_monotone_counterexample :
    ClearWay.negFleetCity.coverage_pct
        ≤ ({ ClearWay.negFleetCity with coverage_pct := 100 } :
            ClearWay.City).coverage_pct
    ∧ ¬ ((ClearWay.computeModel ClearWay.negFleetCity).Q
        ≤ (ClearWay.computeModel
            { ClearWay.negFleetCity with coverage_pct := 100 }).Q) := by
  constructor
  · norm_num [ClearWay.negFleetCity]
  · simp only [ClearWay.computeModel, ClearWay.negFleetCity,
      ClearWay.K_FLEET, ClearWay.T_IDEAL]
    norm_num

/-- C7 (amended): for inputs that agree on everything but `coverage_pct`
and additionally have a nonnegative measurement ratio `CI = V*d*365/L ≥ 0`
(as all in-domain inputs do), `Q` is monotone non-decreasing in
`coverage_pct`. -/
theorem clearway_Q_monotone_in_coverage (c : ClearWay.City) (p1 p2 : ℝ)
    (hp : p1 ≤ p2) (hCI : 0 ≤ c.V * c.d * 365 / c.L) :
    (ClearWay.computeModel { c with coverage_pct := p1 }).Q
      ≤ (ClearWay.computeModel { c with coverage_pct := p2 }).Q := by
  simp only [ClearWay.computeModel]
  have hR : min (max (p1 / 100) 0) 1 ≤ min (max (p2 / 100) 0) 1 := by
    gcongr
  have hQf : 0 ≤ 1 - Real.exp (-(c.V * c.d * 365 / c.L) / ClearWay.K_FLEET) := by
    have : -(c.V * c.d * 365 / c.L) / ClearWay.K_FLEET ≤ 0 := by
      apply div_nonpos_of_nonpos_of_nonneg
      · linarith
      · norm_num [ClearWay.K_FLEET]
    have := Real.exp_le_one_iff.mpr this
    linarith
  have hQt : 0 ≤ min 1 (Real.exp (-(c.T - ClearWay.T_IDEAL) / ClearWay.T_IDEAL)) :=
    le_min zero_le_one (Real.exp_pos _).le
  exact mul_le_mul_of_nonneg_right
    (mul_le_mul_of_nonneg_right hR hQf) hQt

/-- C7 witness: at the Plzeň parameters, raising coverage from 30 to 90
does not decrease `Q`. -/
theorem clearway_Q_monotone_in_coverage_witness :
    (ClearWay.computeModel { ClearWay.plzen with coverage_pct := 30 }).Q
      ≤ (ClearWay.computeModel { ClearWay.plzen with coverage_pct := 90 }).Q :=
  clearway_Q_monotone_in_coverage ClearWay.plzen 30 90 (by norm_num)
    (by norm_num [ClearWay.plzen])

/-- C8 counterexample: two DALRIS inputs with `P_base_risk = 1 > 0`
agreeing on everything but `t_recovery`, with `t_recovery1 = -1 < 1 =
t_recovery2`; then `V_readiness1 = -23` is not greater than
`V_readiness2 = 25`, so `V_readiness` is not monotonically decreasing in
`t_recovery` over all inputs. -/
theorem dalris_V_readiness_not_antitone_counterexample :
    Dalris.negRecoveryCity.P_base_risk > 0
    ∧ Dalris.negRecoveryCity.t_recovery
        < ({ Dalris.negRecoveryCity with t_recovery := 1 } :
            Dalris.DalrisCity).t_recovery
    ∧ ¬ ((Dalris.computeModel Dalris.negRecoveryCity).V_readiness
        > (Dalris.computeModel
            { Dalris.negRecoveryCity with t_recovery := 1 }).V_readiness) := by
  refine ⟨by norm_num [Dalris.negRecoveryCity], by norm_num [Dalris.negRecoveryCity], ?_⟩
  simp only [Dalris.computeModel, Dalris.negRecoveryCity]
  norm_num

/-- C8 (amended): for inputs agreeing on everything but `t_recovery`, with
`P_base_risk > 0` and both recovery times positive (as all in-domain SLA
values are), `V_readiness` is strictly decreasing in `t_recovery`. -/
theorem dalris_V_readiness_antitone_in_t_recovery (c : Dalris.DalrisCity)
    (t1 t2 : ℝ) (hP : 0 < c.P_base_risk) (h1 : 0 < t1) (h12 : t1 < t2) :
    (Dalris.computeModel { c with t_recovery := t2 }).V_readiness
      < (Dalris.computeModel { c with t_recovery := t1 }).V_readiness := by
  simp only [Dalris.computeModel]
  have hdiv : 24 / t2 < 24 / t1 := by
    apply div_lt_div_of_pos_left (by norm_num) h1 h12
  have := mul_lt_mul_of_pos_left (add_lt_add_left hdiv 1) hP
  exact this

/-- C8 witness: at the Plzeň DALRIS parameters, tightening the SLA from
`t_recovery = 24` to `t_recovery = 12` strictly raises `V_readiness`. -/
theorem dalris_V_readiness_antitone_in_t_recovery_witness :
    (Dalris.computeModel
        { Dalris.plzen with t_recovery := 24 }).V_readiness
      < (Dalris.computeModel
        { Dalris.plzen with t_recovery := 12 }).V_readiness :=
  dalris_V_readiness_antitone_in_t_recovery Dalris.plzen 12 24
    (by norm_num [Dalris.plzen]) (by norm_num) (by norm_num)

/-- C10: For every DALRIS input and every permutation of its tiers list,
`computeModel` returns the same result (in particular the same
`totalMaintenance`, `totalCAPEX`, `P_OPEX` and `P`): the two tier
summations are invariant under reordering of the tiers sequence. -/
theorem dalris_computeModel_perm_invariant (c : Dalris.DalrisCity)
    (l1 l2 : List Dalris.HardwareTier) (h : l1.Perm l2) :
    Dalris.computeModel { c with tiers := some l1 }
      = Dalris.computeModel { c with tiers := some l2 } := by
  have hm := (h.map (fun t => t.count * t.maintenance)).sum_eq
  have hc := (h.map (fun t => t.count * t.unitCapex)).sum_eq
  simp only [Dalris.computeModel, Option.getD_some, Dalris.foldl_add_eq_sum,
    hm, hc]

/-- C10 witness: swapping two concrete tiers leaves the DALRIS result
unchanged. -/
theorem dalris_computeModel_perm_invariant_witness :
    Dalris.computeModel
        { Dalris.plzen with tiers := some [Dalris.tierA, Dalris.tierB] }
      = Dalris.computeModel
        { Dalris.plzen with tiers := some [Dalris.tierB, Dalris.tierA] } :=
  dalris_computeModel_perm_invariant Dalris.plzen
    [Dalris.tierA, Dalris.tierB] [Dalris.tierB, Dalris.tierA]
    (List.Perm.swap Dalris.tierB Dalris.tierA [])

/-- Bounds `20.0855 < e³ < 20.0856`, from the ten-digit bounds on `e`. -/
theorem exp_three_bounds :
    (20.0855 : ℝ) < Real.exp 3 ∧ Real.exp 3 < 20.0856 := by
  have he1 := Real.exp_one_gt_d9
  have he2 := Real.exp_one_lt_d9
  have hp := Real.exp_pos 1
  have h3 : Real.exp 3 = Real.exp 1 * Real.exp 1 * Real.exp 1 := by
    rw [← Real.exp_add, ← Real.exp_add]; norm_num
  constructor <;> rw [h3] <;> nlinarith

/-- Bounds `141/112 ≤ exp(29/112) ≤ 112/83`, from `x + 1 ≤ exp x` at `±29/112`. -/
theorem exp_29_112_bounds :
    (141 / 112 : ℝ) ≤ Real.exp (29 / 112) ∧ Real.exp (29 / 112) ≤ 112 / 83 := by
  have hlo := Real.add_one_le_exp (29 / 112 : ℝ)
  have hhi := Real.add_one_le_exp (-(29 / 112) : ℝ)
  rw [Real.exp_neg] at hhi
  have hp := Real.exp_pos (29 / 112 : ℝ)
  have hinv : Real.exp (29 / 112) * (Real.exp (29 / 112))⁻¹ = 1 :=
    mul_inv_cancel₀ (ne_of_gt hp)
  constructor
  · linarith
  · nlinarith

/-- Enclosure `0.0368 < exp(-365/112) < 0.0396`: rigorous bounds on the Plzeň
`exp(-CI / K_FLEET)` value (`CI / K_FLEET = 365/112` there). -/
theorem exp_neg_365_112_bounds :
    (0.0368 : ℝ) < Real.exp (-(365 / 112)) ∧ Real.exp (-(365 / 112)) < 0.0396 := by
  have hsplit : Real.exp (365 / 112 : ℝ) = Real.exp 3 * Real.exp (29 / 112) := by
    rw [← Real.exp_add]; norm_num
  have h3 := exp_three_bounds
  have hr := exp_29_112_bounds
  have hp3 := Real.exp_pos (3 : ℝ)
  have hpr := Real.exp_pos (29 / 112 : ℝ)
  have hbig_lo : (25.28 : ℝ) < Real.exp (365 / 112) := by
    rw [hsplit]; nlinarith [h3.1, hr.1]
  have hbig_hi : Real.exp (365 / 112 : ℝ) < 27.104 := by
    rw [hsplit]; nlinarith [h3.2, hr.2]
  have hneg : Real.exp (-(365 / 112) : ℝ) = (Real.exp (365 / 112))⁻¹ :=
    Real.exp_neg _
  have hpb := Real.exp_pos (365 / 112 : ℝ)
  have hinv : Real.exp (365 / 112) * (Real.exp (365 / 112))⁻¹ = 1 :=
    mul_inv_cancel₀ (ne_of_gt hpb)
  rw [hneg]
  constructor <;> nlinarith

/-- C9: The ClearWay `computeModel` applied to the shipped Plzeň preset
(`L=420, coverage_pct=60, V=5, d=75, T=3, E=15000, alpha=0.15, delta_t=1.5,
Cm=5000, a=1000, b=0.10`) yields `R` within `0.01` of `0.60`, `Qt` within
`0.01` of `1.00`, `Q` within `0.01` of `0.577`, and `P` within `5000` of
`1393763`. -/
theorem clearway_plzen_end_to_end :
    |(ClearWay.computeModel ClearWay.plzen).R - 0.60| ≤ 0.01
    ∧ |(ClearWay.computeModel ClearWay.plzen).Qt - 1.00| ≤ 0.01
    ∧ |(ClearWay.computeModel ClearWay.plzen).Q - 0.577| ≤ 0.01
    ∧ |(ClearWay.computeModel ClearWay.plzen).P - 1393763| ≤ 5000 := by
  have hE := exp_neg_365_112_bounds
  simp only [ClearWay.computeModel, ClearWay.plzen, ClearWay.K_FLEET,
    ClearWay.T_IDEAL]
  norm_num [Real.exp_zero, abs_le]
  constructor <;> constructor <;> nlinarith [hE.1, hE.2]

namespace JS

/-- A JavaScript number, idealised: finite values are exact reals, and the
IEEE-754 special values `Infinity`, `-Infinity` and `NaN` are explicit
(signed zero and rounding are not modelled; none of the verified claims
depend on them). -/
inductive JSNum where
  | nan : JSNum
  | posInf : JSNum
  | negInf : JSNum
  | num : ℝ → JSNum

open JSNum

/-- JS `+` on numbers (IEEE special-value rules). -/
noncomputable def add : JSNum → JSNum → JSNum
  | nan, _ => nan
  | _, nan => nan
  | posInf, negInf => nan
  | negInf, posInf => nan
  | posInf, _ => posInf
  | _, posInf => posInf
  | negInf, _ => negInf
  | _, negInf => negInf
  | num x, num y => num (x + y)

/-- JS unary `-`. -/
noncomputable def neg : JSNum → JSNum
  | nan => nan
  | posInf => negInf
  | negInf => posInf
  | num x => num (-x)

/-- JS binary `-`. -/
noncomputable def sub (a b : JSNum) : JSNum := add a (neg b)

/-- JS `*` on numbers (IEEE special-value rules; `±Infinity * 0 = NaN`). -/
noncomputable def mul : JSNum → JSNum → JSNum
  | nan, _ => nan
  | _, nan => nan
  | posInf, posInf => posInf
  | posInf, negInf => negInf
  | negInf, posInf => negInf
  | negInf, negInf => posInf
  | posInf, num y => if 0 < y then posInf else if y < 0 then negInf else nan
  | num x, posInf => if 0 < x then posInf else if x < 0 then negInf else nan
  | negInf, num y => if 0 < y then negInf else if y < 0 then posInf else nan
  | num x, negInf => if 0 < x then negInf else if x < 0 then posInf else nan
  | num x, num y => num (x * y)

/-- JS `/` on numbers: division of a nonzero finite value by zero gives a
signed infinity (`0/0` gives `NaN`), `Infinity / Infinity` gives `NaN`,
and a finite value divided by an infinity gives `0`. -/
noncomputable def div : JSNum → JSNum → JSNum
  | nan, _ => nan
  | _, nan => nan
  | posInf, posInf => nan
  | posInf, negInf => nan
  | negInf, posInf => nan
  | negInf, negInf => nan
  | posInf, num y => if 0 ≤ y then posInf else negInf
  | negInf, num y => if 0 ≤ y then negInf else posInf
  | num _, posInf => num 0
  | num _, negInf => num 0
  | num x, num y =>
      if y = 0 then (if 0 < x then posInf else if x < 0 then negInf else nan)
      else num (x / y)

/-- JS `Math.exp`. -/
noncomputable def exp : JSNum → JSNum
  | nan => nan
  | posInf => posInf
  | negInf => num 0
  | num x => num (Real.exp x)

/-- JS `Math.min` (NaN-propagating). -/
noncomputable def jmin : JSNum → JSNum → JSNum
  | nan, _ => nan
  | _, nan => nan
  | negInf, _ => negInf
  | _, negInf => negInf
  | posInf, b => b
  | a, posInf => a
  | num x, num y => num (min x y)

/-- JS `Math.max` (NaN-propagating). -/
noncomputable def jmax : JSNum → JSNum → JSNum
  | nan, _ => nan
  | _, nan => nan
  | posInf, _ => posInf
  | _, posInf => posInf
  | negInf, b => b
  | a, negInf => a
  | num x, num y => num (max x y)

end JS

namespace ClearWay

/-- The ClearWay `City` record over JS numbers. -/
structure CityJS where
  L : JS.JSNum
  coverage_pct : JS.JSNum
  V : JS.JSNum
  d : JS.JSNum
  T : JS.JSNum
  E : JS.JSNum
  alpha : JS.JSNum
  delta_t : JS.JSNum
  Cm : JS.JSNum
  a : JS.JSNum
  b : JS.JSNum

/-- The ClearWay `ModelResult` record over JS numbers. -/
structure ModelResultJS where
  CI : JS.JSNum
  Qf : JS.JSNum
  Qt : JS.JSNum
  R : JS.JSNum
  L_measured : JS.JSNum
  Q : JS.JSNum
  SV : JS.JSNum
  SV_real : JS.JSNum
  P : JS.JSNum

/-- The ClearWay `computeModel` from `src/unnamed/part_005`, over JS numbers: identical
operation-for-operation to the source, with IEEE special values explicit.
Every input yields a full result record: the pipeline is unguarded and
cannot raise. -/
noncomputable def computeModelJS (c : CityJS) : ModelResultJS :=
  let CI := JS.div (JS.mul (JS.mul c.V c.d) (JS.JSNum.num 365)) c.L
  let Qf := JS.sub (JS.JSNum.num 1) (JS.exp (JS.div (JS.neg CI) (JS.JSNum.num 100)))
  let Qt := JS.jmin (JS.JSNum.num 1)
    (JS.exp (JS.div (JS.neg (JS.sub c.T (JS.JSNum.num 3))) (JS.JSNum.num 3)))
  let R := JS.jmin (JS.jmax (JS.div c.coverage_pct (JS.JSNum.num 100)) (JS.JSNum.num 0))
    (JS.JSNum.num 1)
  let L_measured := JS.mul R c.L
  let Q := JS.mul (JS.mul R Qf) Qt
  let SV := JS.mul (JS.mul (JS.mul c.E c.alpha) c.delta_t) c.Cm
  let SV_real := JS.mul SV Q
  let P := JS.add (JS.mul c.a c.L) (JS.mul c.b SV_real)
  { CI := CI, Qf := Qf, Qt := Qt, R := R, L_measured := L_measured,
    Q := Q, SV := SV, SV_real := SV_real, P := P }

/-- The Plzeň parameters with the network length set to `L = 0`
(division by zero in the `CI` stage, by design unguarded). -/
def zeroLCity : CityJS :=
  { L := JS.JSNum.num 0, coverage_pct := JS.JSNum.num 60,
    V := JS.JSNum.num 5, d := JS.JSNum.num 75, T := JS.JSNum.num 3,
    E := JS.JSNum.num 15000, alpha := JS.JSNum.num 0.15,
    delta_t := JS.JSNum.num 1.5, Cm := JS.JSNum.num 5000,
    a := JS.JSNum.num 1000, b := JS.JSNum.num 0.10 }

end ClearWay

namespace Dalris

/-- A DALRIS hardware tier over JS numbers. -/
structure HardwareTierJS where
  name : String
  count : JS.JSNum
  maintenance : JS.JSNum
  unitCapex : JS.JSNum

/-- The DALRIS `DalrisCity` record over JS numbers. -/
structure DalrisCityJS where
  id : String
  name : String
  L_base : JS.JSNum
  P_base_risk : JS.JSNum
  t_recovery : JS.JSNum
  tiers : Option (List HardwareTierJS)

/-- The DALRIS `DalrisResult` record over JS numbers. -/
structure DalrisResultJS where
  V_readiness : JS.JSNum
  totalMaintenance : JS.JSNum
  P_OPEX : JS.JSNum
  totalCAPEX : JS.JSNum
  P : JS.JSNum

/-- The DALRIS `computeModel` from `src/lib/projects/dalris/model.ts` over JS numbers,
operation-for-operation; every input yields a full result record. -/
noncomputable def computeModelJS (c : DalrisCityJS) : DalrisResultJS :=
  let tiers := c.tiers.getD []
  let V_readiness :=
    JS.mul c.P_base_risk (JS.add (JS.JSNum.num 1) (JS.div (JS.JSNum.num 24) c.t_recovery))
  let totalMaintenance :=
    tiers.foldl (fun sum t => JS.add sum (JS.mul t.count t.maintenance))
      (JS.JSNum.num 0)
  let P_OPEX := JS.add (JS.add c.L_base totalMaintenance) V_readiness
  let totalCAPEX :=
    tiers.foldl (fun sum t => JS.add sum (JS.mul t.count t.unitCapex))
      (JS.JSNum.num 0)
  { V_readiness := V_readiness
    totalMaintenance := totalMaintenance
    P_OPEX := P_OPEX
    totalCAPEX := totalCAPEX
    P := P_OPEX }

/-- The Plzeň DALRIS parameters with the SLA recovery time set to
`t_recovery = 0` (division by zero in the readiness stage, by design
unguarded). -/
def zeroRecoveryCity : DalrisCityJS :=
  { id := "plzen", name := "Plzeň", L_base := JS.JSNum.num 500000,
    P_base_risk := JS.JSNum.num 200000, t_recovery := JS.JSNum.num 0,
    tiers := some [] }

end Dalris

/-- C3: Both Model Evaluators are total over every numeric input: over the
JS-number embedding, `computeModelJS` (ClearWay) and `computeModelJS`
(DALRIS) produce a full result record for every input (no error is ever
raised; both conjuncts hold by construction because the translated pipeline
is unguarded), and out-of-domain inputs propagate degenerate IEEE values:
ClearWay `L = 0` (with positive `V * d`) yields `CI = Infinity`, and DALRIS
`t_recovery = 0` (with positive `P_base_risk`) yields
`V_readiness = Infinity`. -/
theorem evaluators_total_and_propagate_infinity :
    (∀ c : ClearWay.CityJS, ∃ r, ClearWay.computeModelJS c = r)
    ∧ (∀ dc : Dalris.DalrisCityJS, ∃ r, Dalris.computeModelJS dc = r)
    ∧ (∀ (c : ClearWay.CityJS) (v dd : ℝ), c.L = JS.JSNum.num 0 →
        c.V = JS.JSNum.num v → c.d = JS.JSNum.num dd → 0 < v * dd →
        (ClearWay.computeModelJS c).CI = JS.JSNum.posInf)
    ∧ (∀ (dc : Dalris.DalrisCityJS) (p : ℝ), dc.t_recovery = JS.JSNum.num 0 →
        dc.P_base_risk = JS.JSNum.num p → 0 < p →
        (Dalris.computeModelJS dc).V_readiness = JS.JSNum.posInf) := by
  refine ⟨fun c => ⟨_, rfl⟩, fun dc => ⟨_, rfl⟩, ?_, ?_⟩
  · intro c v dd hL hV hd hpos
    have hX : (0 : ℝ) < v * dd * 365 := by nlinarith
    simp only [ClearWay.computeModelJS, hL, hV, hd, JS.mul, JS.div]
    simp [hX]
  · intro dc p ht hp hpos
    simp only [Dalris.computeModelJS, ht, hp, JS.mul, JS.div, JS.add]
    simp [hpos]

/-- C3 witness: a ClearWay input with `L = 0` whose `CI` is `Infinity`, and
a DALRIS input with `t_recovery = 0` whose `V_readiness` is `Infinity`. -/
theorem evaluators_total_and_propagate_infinity_witness :
    (ClearWay.computeModelJS ClearWay.zeroLCity).CI = JS.JSNum.posInf
    ∧ (Dalris.computeModelJS Dalris.zeroRecoveryCity).V_readiness
        = JS.JSNum.posInf :=
  ⟨evaluators_total_and_propagate_infinity.2.2.1 ClearWay.zeroLCity 5 75
      rfl rfl rfl (by norm_num),
    evaluators_total_and_propagate_infinity.2.2.2 Dalris.zeroRecoveryCity
      200000 rfl rfl (by norm_num)⟩
